import Mathlib

/-!
Verification of the entitlement-gated chat proxy backend
(`src/backend/app/main.py`) against its natural-language specification.

The development shallowly embeds the chat orchestrator (`chat`), the
streaming External Chat Client (`chat_with_dify` / `process_streaming_response`),
the chat-history endpoint (`get_chat_history`) and the payment webhook
handler (`stripe_webhook`).  Stateful Supabase tables are modelled as
explicit lists carried in a `ChatState`; Python exceptions are modelled
with `Except` over a `PyExc` error type; the blanket
`except Exception` wrapper at the bottom of the `/chat` endpoint is
modelled explicitly, because it changes user-visible status codes.
-/

namespace DifyChat

/-! ## Characters used by the JSON fragment model

Some characters are written via their code points so the source file
stays free of brace and quote literals inside strings. -/

def quoteChar : Char := Char.ofNat 34

def backslashChar : Char := Char.ofNat 92

def lbraceChar : Char := Char.ofNat 123

def rbraceChar : Char := Char.ofNat 125

def tabChar : Char := Char.ofNat 9

def lfChar : Char := Char.ofNat 10

def crChar : Char := Char.ofNat 13

/-! ## JSON values

`process_streaming_response` (main.py lines 197-215) feeds each
`data:`-prefixed stream line to Python's `json.loads`.  `JVal` is the
resulting value universe.  Numbers are kept as raw text: the handler
never reads a numeric value, it only needs to know one is present. -/

inductive JVal where
  | jnull : JVal
  | jbool (b : Bool) : JVal
  | jnum (raw : String) : JVal
  | jstr (s : String) : JVal
  | jarr (elems : List JVal) : JVal
  | jobj (fields : List (String × JVal)) : JVal
deriving Repr

def isWsChar (c : Char) : Bool :=
  c == ' ' || c == tabChar || c == lfChar || c == crChar

def skipWs : List Char → List Char
  | [] => []
  | c :: cs => if isWsChar c then skipWs cs else c :: cs

/-- Decodes a single-character JSON escape (the character after a
backslash inside a string literal), as `json.loads` does. -/
def unescapeChar (c : Char) : Option Char :=
  if c = quoteChar then some quoteChar
  else if c = backslashChar then some backslashChar
  else if c = '/' then some '/'
  else if c = 'b' then some (Char.ofNat 8)
  else if c = 'f' then some (Char.ofNat 12)
  else if c = 'n' then some lfChar
  else if c = 'r' then some crChar
  else if c = 't' then some tabChar
  else none

def hexDigit (c : Char) : Option Nat :=
  if c.isDigit then some (c.toNat - 48)
  else if 'a' ≤ c ∧ c ≤ 'f' then some (c.toNat - 87)
  else if 'A' ≤ c ∧ c ≤ 'F' then some (c.toNat - 55)
  else none

/-- Parses the body of a JSON string literal (the opening quote already
consumed), returning the decoded string and the remaining input.
`acc` holds the decoded characters in reverse.  Fuel-based recursion
keeps the definition structural, hence kernel-computable. -/
def parseStringBody : Nat → List Char → List Char → Option (String × List Char)
  | 0, _, _ => none
  | _ + 1, _, [] => none
  | fuel + 1, acc, c :: cs =>
    if c = quoteChar then some (String.mk acc.reverse, cs)
    else if c = backslashChar then
      match cs with
      | [] => none
      | e :: cs2 =>
        if e = 'u' then
          match cs2 with
          | h1 :: h2 :: h3 :: h4 :: cs3 =>
            match hexDigit h1, hexDigit h2, hexDigit h3, hexDigit h4 with
            | some a, some b, some c2, some d =>
              parseStringBody fuel
                (Char.ofNat (((a * 16 + b) * 16 + c2) * 16 + d) :: acc) cs3
            | _, _, _, _ => none
          | _ => none
        else
          match unescapeChar e with
          | some uc => parseStringBody fuel (uc :: acc) cs2
          | none => none
    else parseStringBody fuel (c :: acc) cs

def isNumChar (c : Char) : Bool :=
  c.isDigit || c == '-' || c == '+' || c == '.' || c == 'e' || c == 'E'

/-- Splits off the longest run of number characters. -/
def takeNum : List Char → List Char × List Char
  | [] => ([], [])
  | c :: cs =>
    if isNumChar c then
      let p := takeNum cs
      (c :: p.1, p.2)
    else ([], c :: cs)

/-- Parsing modes of the JSON reader: a whole value, the element list of
an array whose head has not been read yet, or the field list of an
object whose first key has not been read yet. -/
inductive PKind where
  | val : PKind
  | elems : PKind
  | fields : PKind

/-- Recursive-descent JSON reader modelling `json.loads` on the fragment
grammar the stream protocol uses.  Number syntax is accepted liberally
(any nonempty digit-containing run of number characters); the handler
only ever tests for the presence of a value, never its numeric
content.  Fuel-based so that the recursion is structural. -/
def parseK : Nat → PKind → List Char → Option (JVal × List Char)
  | 0, _, _ => none
  | fuel + 1, .val, cs =>
    match skipWs cs with
    | [] => none
    | c :: rest =>
      if c = quoteChar then
        match parseStringBody (rest.length + 1) [] rest with
        | some (s, rest2) => some (.jstr s, rest2)
        | none => none
      else if c = lbraceChar then
        match skipWs rest with
        | [] => none
        | c2 :: r3 =>
          if c2 = rbraceChar then some (.jobj [], r3)
          else parseK fuel .fields (c2 :: r3)
      else if c = '[' then
        match skipWs rest with
        | [] => none
        | c2 :: r3 =>
          if c2 = ']' then some (.jarr [], r3)
          else parseK fuel .elems (c2 :: r3)
      else if c = 't' then
        match rest with
        | 'r' :: 'u' :: 'e' :: r => some (.jbool true, r)
        | _ => none
      else if c = 'f' then
        match rest with
        | 'a' :: 'l' :: 's' :: 'e' :: r => some (.jbool false, r)
        | _ => none
      else if c = 'n' then
        match rest with
        | 'u' :: 'l' :: 'l' :: r => some (.jnull, r)
        | _ => none
      else if c.isDigit || c = '-' then
        let p := takeNum (c :: rest)
        if p.1.any Char.isDigit then some (.jnum (String.mk p.1), p.2) else none
      else none
  | fuel + 1, .elems, cs =>
    match parseK fuel .val cs with
    | none => none
    | some (v, rest) =>
      match skipWs rest with
      | ',' :: r2 =>
        match parseK fuel .elems r2 with
        | some (.jarr vs, r3) => some (.jarr (v :: vs), r3)
        | _ => none
      | ']' :: r2 => some (.jarr [v], r2)
      | _ => none
  | fuel + 1, .fields, cs =>
    match skipWs cs with
    | [] => none
    | c :: rest =>
      if c = quoteChar then
        match parseStringBody (rest.length + 1) [] rest with
        | none => none
        | some (k, r2) =>
          match skipWs r2 with
          | ':' :: r3 =>
            match parseK fuel .val r3 with
            | none => none
            | some (v, r4) =>
              match skipWs r4 with
              | [] => none
              | c5 :: r5 =>
                if c5 = ',' then
                  match parseK fuel .fields r5 with
                  | some (.jobj fs, r6) => some (.jobj ((k, v) :: fs), r6)
                  | _ => none
                else if c5 = rbraceChar then some (.jobj [(k, v)], r5)
                else none
          | _ => none
      else none

/-- Models `json.loads` on a whole input string: parse one value and
require only whitespace to remain, otherwise fail (Python raises
`json.JSONDecodeError`, modelled as `none`). -/
def jsonLoads (s : String) : Option JVal :=
  match parseK (s.data.length + 1) .val s.data with
  | some (v, rest) => if (skipWs rest).isEmpty then some v else none
  | none => none

/-! ## Python exceptions

Every failure the embedded handlers can raise.  `httpExc status detail`
is FastAPI's `HTTPException`; its Python `str()` is
`"{status}: {detail}"` (with a literal status number), which matters
because the `/chat` endpoint's blanket `except Exception` handler
(main.py lines 267-269) interpolates `str(e)` into a fresh 500
response.  `noRowError` models the exception produced when
`.single().execute()` finds no row (supabase raises `APIError`; even if
it instead returned `None`, line 222 `user_profile.get('chat_count', 0)`
would raise `AttributeError` on `None` before the `if not user_profile`
check on line 224 — under either reading a missing profile surfaces as
a raised exception, not as the dead 404 branch).  `typeError` models
`TypeError` from `full_response += data['answer']` when the parsed
`answer` is not a string (or from `'answer' in data` on a non-container). -/

inductive PyExc where
  | httpExc (status : Nat) (detail : String) : PyExc
  | noRowError : PyExc
  | typeError : PyExc
deriving DecidableEq, Repr

deriving instance DecidableEq for Except

/-- Python `str(e)` for the exceptions above, as interpolated by the
`/chat` endpoint's `except Exception` handler.  The exact text of
`noRowError`/`typeError` messages is representative, not verified;
theorems about those paths only constrain the HTTP status. -/
def pyStr : PyExc → String
  | .httpExc status detail => toString status ++ ": " ++ detail
  | .noRowError => "JSON object requested, multiple (or no) rows returned"
  | .typeError => "can only concatenate str (not other) to str"

/-- The error raised when the accumulated stream answer is empty
(main.py line 215): the spec's `UpstreamEmptyResponse`. -/
def UpstreamEmptyResponse : PyExc :=
  .httpExc 500 "Empty or invalid response from Dify API"

/-! ## The streaming accumulator (`process_streaming_response`, lines 197-215) -/

/-- Last-wins lookup of a key among parsed object fields, matching the
dict that Python's `json.loads` builds (duplicate keys: last wins). -/
def jlookup (fields : List (String × JVal)) (k : String) : Option JVal :=
  (fields.reverse.find? (fun f => f.1 == k)).map (fun f => f.2)

def isAnswerStr : JVal → Bool
  | .jstr s => s == "answer"
  | _ => false

def answerChars : List Char := ['a', 'n', 's', 'w', 'e', 'r']

/-- Whether `"answer"` occurs as a substring (Python `'answer' in data`
when `data` is a string). -/
def containsAnswerSub : List Char → Bool
  | [] => answerChars.isPrefixOf []
  | c :: rest =>
    if answerChars.isPrefixOf (c :: rest) then true else containsAnswerSub rest

/-- Python lines 206-207 applied to one parsed value `data`:
`if 'answer' in data: full_response += data['answer']`.
A dict with a string `answer` appends it; a dict without `answer` (or
with a non-string one that the `in` test still finds) behaves as the
`+=`/`in` operators do in Python: string concatenation with a non-string
raises `TypeError`, `in` on a non-container raises `TypeError`, and
indexing a list or string with the key `'answer'` raises `TypeError`. -/
def answerLookup (acc : String) (v : JVal) : Except PyExc String :=
  match v with
  | .jobj fields =>
    match jlookup fields "answer" with
    | some (.jstr s) => .ok (acc ++ s)
    | some _ => .error .typeError
    | none => .ok acc
  | .jarr xs => if xs.any isAnswerStr then .error .typeError else .ok acc
  | .jstr s => if containsAnswerSub s.data then .error .typeError else .ok acc
  | _ => .error .typeError

/-- Python `decoded_line.startswith('data:')` (line 203). -/
def startsWithData : List Char → Bool
  | 'd' :: 'a' :: 't' :: 'a' :: ':' :: _ => true
  | _ => false

/-- One iteration of the `for line in response.iter_lines()` loop
(lines 199-209): blank lines are skipped, non-`data:` lines are skipped,
the text after the 5-character `data:` marker is fed to `json.loads`,
a `JSONDecodeError` is logged and skipped, and a parsed value is folded
into the accumulator by `answerLookup`. -/
def processLine (acc : String) (line : String) : Except PyExc String :=
  if line.data.isEmpty then .ok acc
  else if startsWithData line.data then
    match jsonLoads (String.mk (line.data.drop 5)) with
    | none => .ok acc
    | some v => answerLookup acc v
  else .ok acc

/-- Runs the accumulator loop over all stream lines, stopping at the
first raised exception. -/
def accumulateLines (acc : String) : List String → Except PyExc String
  | [] => .ok acc
  | l :: ls =>
    match processLine acc l with
    | .ok acc2 => accumulateLines acc2 ls
    | .error e => .error e

/-- `process_streaming_response` (lines 197-215): accumulate all
`answer` fragments; a nonempty accumulation is returned, an empty one
raises `UpstreamEmptyResponse` (an `HTTPException` with status 500 and
detail `"Empty or invalid response from Dify API"`). -/
def process_streaming_response (lines : List String) : Except PyExc String :=
  match accumulateLines "" lines with
  | .error e => .error e
  | .ok full => if full = "" then .error UpstreamEmptyResponse else .ok full

/-- Behavior of the upstream Dify endpoint for one request: either the
HTTP call itself fails (network error or `raise_for_status`, carrying
the upstream body text), or it succeeds and yields the given stream
lines (already decoded, as `iter_lines` delivers them). -/
inductive Upstream where
  | failure (body : String) : Upstream
  | stream (lines : List String) : Upstream
deriving DecidableEq, Repr

/-- `chat_with_dify` (lines 166-195): on a transport/status failure the
`except requests.exceptions.RequestException` handler re-raises an
`HTTPException(500, ...)` carrying the upstream body; on success the
streaming response is accumulated.  `message` and `user_id` are sent
upstream but do not influence the client's result, which is determined
by the upstream behavior `up`. -/
def chat_with_dify (message user_id : String) (up : Upstream) : Except PyExc String :=
  match message, user_id, up with
  | _, _, .failure body => .error (.httpExc 500 ("Error calling Dify API: " ++ body))
  | _, _, .stream lines => process_streaming_response lines

/-! ## Data model: entitlement records and the transcript

`user_profiles` rows and `chat_messages` rows as this core reads and
writes them.  `created_at` is the server-assigned creation timestamp;
the embedding assigns each appended message the current length of the
message table, which yields strictly increasing stamps along the
append-only log, matching a monotone server clock. -/

inductive Role where
  | user : Role
  | assistant : Role
deriving DecidableEq, Repr

structure Profile where
  user_id : String
  is_paid : Bool
  chat_count : Nat
  stripe_customer_id : Option String
deriving DecidableEq, Repr

structure Msg where
  user_id : String
  role : Role
  content : String
  created_at : Nat
deriving DecidableEq, Repr

/-- The durable store: the `user_profiles` table and the append-only
`chat_messages` table. -/
structure ChatState where
  profiles : List Profile
  messages : List Msg
deriving DecidableEq, Repr

/-- `supabase.table('user_profiles').select('*').eq('user_id', uid).single()`:
the row whose `user_id` equals `uid`, if any (`user_id` is unique). -/
def findProfile (ps : List Profile) (uid : String) : Option Profile :=
  ps.find? (fun p => p.user_id == uid)

/-- `supabase.table('user_profiles').select('*').eq('stripe_customer_id', cid).single()`
(main.py line 298). -/
def findByCustomer (ps : List Profile) (cid : String) : Option Profile :=
  ps.find? (fun p => p.stripe_customer_id == some cid)

/-- `supabase.table('chat_messages').insert(...)`: append one message;
`created_at` is assigned by the store. -/
def appendMsg (st : ChatState) (uid : String) (r : Role) (content : String) : ChatState :=
  ⟨st.profiles, st.messages ++ [⟨uid, r, content, st.messages.length⟩]⟩

/-- `supabase.table('user_profiles').update(\x7b'chat_count': n\x7d).eq('user_id', uid)`
(main.py line 262): set `chat_count` on every row matching `uid`. -/
def updateChatCount (ps : List Profile) (uid : String) (n : Nat) : List Profile :=
  ps.map (fun p => if p.user_id == uid then { p with chat_count := n } else p)

/-- The checkout-completed mutation applied to one entitlement record
(main.py lines 303-306): `is_paid := true`, `chat_count := 0`.  This is
the spec's `mark_paid` (4.2). -/
def mark_paid (p : Profile) : Profile :=
  { p with is_paid := true, chat_count := 0 }

/-- `supabase.table('user_profiles').update(\x7b'is_paid': True, 'chat_count': 0\x7d).eq('user_id', uid)`:
`mark_paid` on every row matching `uid`. -/
def markPaidUpdate (ps : List Profile) (uid : String) : List Profile :=
  ps.map (fun p => if p.user_id == uid then mark_paid p else p)

/-! ## The chat orchestrator (`/chat`, main.py lines 217-269) -/

structure HttpResponse where
  status : Nat
  body : String
deriving DecidableEq, Repr

/-- Result of the body of the endpoint's `try:` block: either a response
returned normally or a raised Python exception, together with the store
state left behind and whether the External Chat Client was invoked. -/
structure TryOutcome where
  result : Except PyExc HttpResponse
  state : ChatState
  difyCalled : Bool
deriving DecidableEq, Repr

/-- Observable outcome of the whole endpoint. -/
structure ChatOutcome where
  response : HttpResponse
  state : ChatState
  difyCalled : Bool
deriving DecidableEq, Repr

/-- The `try:` block of the `/chat` endpoint (main.py lines 219-265),
line by line:
line 221 loads the profile of the token-resolved caller `tokenUid`
(a missing row raises, see `PyExc.noRowError`; consequently the
`if not user_profile` 404 branch on lines 224-225 is unreachable and
has no counterpart here); line 222 reads `chat_count`; lines 227-228
raise `HTTPException(402, "Please purchase access to start chatting.")`
when `is_paid` is falsy; lines 231-232 return — not raise — a 402
`JSONResponse` when `chat_count >= 50`; lines 237-241 insert the user
message under the request-body id `bodyUid`; line 245 calls
`chat_with_dify(message, tokenUid)`; lines 254-258 insert the assistant
reply under `bodyUid`; lines 261-262 write `chat_count + 1` to the rows
of `tokenUid`; line 265 returns the answer with status 200. -/
def chatTry (st : ChatState) (tokenUid bodyUid message : String) (up : Upstream) :
    TryOutcome :=
  match findProfile st.profiles tokenUid with
  | none => ⟨.error .noRowError, st, false⟩
  | some p =>
    if p.is_paid = false then
      ⟨.error (.httpExc 402 "Please purchase access to start chatting."), st, false⟩
    else if p.chat_count ≥ 50 then
      ⟨.ok ⟨402, "Chat limit reached. Please purchase more credits."⟩, st, false⟩
    else
      let st1 := appendMsg st bodyUid Role.user message
      match chat_with_dify message tokenUid up with
      | .error e => ⟨.error e, st1, true⟩
      | .ok answer =>
        let st2 := appendMsg st1 bodyUid Role.assistant answer
        let st3 : ChatState := ⟨updateChatCount st2.profiles tokenUid (p.chat_count + 1), st2.messages⟩
        ⟨.ok ⟨200, answer⟩, st3, true⟩

/-- The `/chat` endpoint: the `try:` block wrapped by the blanket
`except Exception as e: raise HTTPException(500, "Internal server
error: " + str(e))` handler (main.py lines 267-269).  `HTTPException`
is an `Exception` subclass, so exceptions raised *inside* the block —
including the 402 payment-required one — are caught and resurface with
status 500; only a normal `return` (the quota 402 and the success 200)
keeps its status. -/
def chat (st : ChatState) (tokenUid bodyUid message : String) (up : Upstream) :
    ChatOutcome :=
  match chatTry st tokenUid bodyUid message up with
  | ⟨.ok r, st2, d⟩ => ⟨r, st2, d⟩
  | ⟨.error e, st2, d⟩ => ⟨⟨500, "Internal server error: " ++ pyStr e⟩, st2, d⟩

/-! ## The chat-history endpoint (`/chat_history`, main.py lines 271-279) -/

/-- Stable-enough insertion step for ascending `created_at`. -/
def insertByTime (m : Msg) : List Msg → List Msg
  | [] => [m]
  | x :: xs =>
    if m.created_at ≤ x.created_at then m :: x :: xs else x :: insertByTime m xs

/-- Ascending sort by `created_at`, modelling `.order('created_at')`. -/
def sortByTime : List Msg → List Msg
  | [] => []
  | m :: ms => insertByTime m (sortByTime ms)

/-- `/chat_history`: the caller's rows of `chat_messages` (filtered by
the token-resolved id, line 275) ordered by `created_at` ascending. -/
def get_chat_history (st : ChatState) (tokenUid : String) : List Msg :=
  sortByTime (st.messages.filter (fun m => m.user_id == tokenUid))

/-! ## The payment webhook (`/stripe-webhook`, main.py lines 281-321) -/

/-- A verified billing event, after `stripe.Webhook.construct_event`
succeeded: either a `checkout.session.completed` event carrying the
billing customer id, or any other event type. -/
inductive StripeEvent where
  | checkoutCompleted (customer : String) : StripeEvent
  | otherEvent (ty : String) : StripeEvent
deriving DecidableEq, Repr

/-- `/stripe-webhook`: `sigOk` is whether
`stripe.Webhook.construct_event` verified the signature (lines
286-290; failure returns 400 and processes nothing).  A verified
`checkout.session.completed` event looks the entitlement record up by
customer id (line 298; no matching row raises inside the local `try:`
and surfaces as the 500 of line 319, so the 404 of line 316 is not
taken on the raising reading of `.single()`), applies the
`mark_paid` update (lines 303-306) and acknowledges with 200; all
other verified events are acknowledged with 200 and no mutation
(line 321). -/
def stripe_webhook (st : ChatState) (sigOk : Bool) (event : StripeEvent) :
    HttpResponse × ChatState :=
  if sigOk = false then
    (⟨400, "signature verification failed"⟩, st)
  else
    match event with
    | .otherEvent _ => (⟨200, "Event processed"⟩, st)
    | .checkoutCompleted customer_id =>
      match findByCustomer st.profiles customer_id with
      | none => (⟨500, "no rows returned for customer lookup"⟩, st)
      | some user =>
        let newProfiles := markPaidUpdate st.profiles user.user_id
        if st.profiles.any (fun q => q.user_id == user.user_id) then
          (⟨200, "Payment status updated"⟩, ⟨newProfiles, st.messages⟩)
        else
          (⟨500, "Failed to update user profile"⟩, ⟨newProfiles, st.messages⟩)

/-! ## Repeated chat exchanges (for the transcript round-trip claim) -/

/-- Runs a sequence of chat requests for the same user (token id and
body id both `uid`, as a well-behaved client sends them), threading the
store state; returns the final state and the list of response statuses
in order. -/
def runChats (st : ChatState) (uid : String) :
    List (String × Upstream) → ChatState × List Nat
  | [] => (st, [])
  | (msg, up) :: rest =>
    let o := chat st uid uid msg up
    let r := runChats o.state uid rest
    (r.1, o.response.status :: r.2)

/-- The transcript shape produced by a run of successful exchanges for
`uid`: user/assistant pairs with consecutive `created_at` stamps
starting at `start`. -/
def transcriptOf (uid : String) (start : Nat) : List (String × String) → List Msg
  | [] => []
  | (q, a) :: rest =>
    ⟨uid, Role.user, q, start⟩ :: ⟨uid, Role.assistant, a, start + 1⟩ ::
      transcriptOf uid (start + 2) rest

/-- The role pattern `[user, assistant, user, assistant, ...]` of `n`
exchanges. -/
def alternatingRoles : Nat → List Role
  | 0 => []
  | n + 1 => Role.user :: Role.assistant :: alternatingRoles n

/-- Strictly ascending `created_at` along a message list. -/
def chronological : List Msg → Bool
  | [] => true
  | [_] => true
  | a :: b :: rest => decide (a.created_at < b.created_at) && chronological (b :: rest)

/-! ## Per-line analysis of the stream accumulator

`processLine` only ever extends its accumulator on the right, so the
behavior of a whole stream is determined by what each line contributes
on its own: `lineResult` is the line's effect started from the empty
accumulator, `lineOk` whether it completes without raising, `lineText`
the fragment it contributes, and `answersConcat` the in-arrival-order
concatenation of all contributed fragments. -/

def lineResult (line : String) : Except PyExc String :=
  processLine "" line

def lineOk (line : String) : Bool :=
  match lineResult line with
  | .ok _ => true
  | .error _ => false

def lineText (line : String) : String :=
  match lineResult line with
  | .ok s => s
  | .error _ => ""

def answersConcat : List String → String
  | [] => ""
  | l :: ls => lineText l ++ answersConcat ls

/-! ## Concrete inputs used by witnesses and counterexamples -/

/-- The spec's stream-reconstruction scenario: two well-formed
`data:` fragments and one malformed line. -/
def exampleLines : List String :=
  ["data: \x7b\"answer\":\"Hel\"\x7d", "data: \x7b\"answer\":\"lo\"\x7d", "data: not-json"]

/-- A stream with no `answer` fragments: a JSON line without an
`answer` field, a blank line and a non-`data:` line. -/
def noAnswerLines : List String :=
  ["data: \x7b\"x\":1\x7d", "", "event: ping"]

/-- A stream consisting of a single malformed line. -/
def malformedOnlyLines : List String :=
  ["data: not-json"]

/-- An upstream that streams one fragment with answer text "yo". -/
def yoUp : Upstream :=
  .stream ["data: \x7b\"answer\":\"yo\"\x7d"]

/-- A store with a single unpaid profile. -/
def unpaidState : ChatState :=
  ⟨[⟨"u1", false, 0, none⟩], []⟩

/-- A store with a paid profile that has exhausted its quota. -/
def quotaState : ChatState :=
  ⟨[⟨"u1", true, 50, none⟩], []⟩

/-- A store with no profiles at all. -/
def emptyStore : ChatState :=
  ⟨[], []⟩

/-- A store with a paid, under-quota profile for user "alice". -/
def aliceState : ChatState :=
  ⟨[⟨"alice", true, 3, none⟩], []⟩

/-- A store with a paid profile that already has `is_paid = true` and a
nonzero `chat_count`, linked to billing customer "cus_1". -/
def alreadyPaidState : ChatState :=
  ⟨[⟨"u1", true, 30, some "cus_1"⟩], []⟩

/-- Two concrete successful exchanges. -/
def twoExchanges : List (String × Upstream) := [("q1", yoUp), ("q2", yoUp)]

/-! ## Lemmas about the stream accumulator -/

theorem answerLookup_decomp (acc : String) (v : JVal) :
    answerLookup acc v =
      match answerLookup "" v with
      | .ok s => .ok (acc ++ s)
      | .error e => .error e := by
  cases v with
  | jobj fields =>
    simp only [answerLookup]
    cases jlookup fields "answer" with
    | none => simp
    | some w => cases w <;> simp
  | jarr xs =>
    simp only [answerLookup]
    by_cases h : xs.any isAnswerStr = true <;> simp [h]
  | jstr s =>
    simp only [answerLookup]
    by_cases h : containsAnswerSub s.data = true <;> simp [h]
  | jnull => simp [answerLookup]
  | jbool b => simp [answerLookup]
  | jnum raw => simp [answerLookup]

theorem processLine_decomp (acc line : String) :
    processLine acc line =
      match lineResult line with
      | .ok s => .ok (acc ++ s)
      | .error e => .error e := by
  unfold lineResult processLine
  by_cases h0 : line.data.isEmpty = true
  · simp [h0]
  · by_cases h1 : startsWithData line.data = true
    · simp only [h0, h1, if_true, if_false, Bool.false_eq_true, ite_true, ite_false]
      cases hj : jsonLoads (String.mk (line.data.drop 5)) with
      | none => simp
      | some v => exact answerLookup_decomp acc v
    · simp [h0, h1]

theorem accumulateLines_ok (lines : List String) :
    ∀ acc : String, (∀ l ∈ lines, lineOk l = true) →
      accumulateLines acc lines = .ok (acc ++ answersConcat lines) := by
  induction lines with
  | nil => intro acc _; simp [accumulateLines, answersConcat]
  | cons l ls ih =>
    intro acc h
    have hl : lineOk l = true := h l (List.mem_cons_self l ls)
    have hrest : ∀ x ∈ ls, lineOk x = true :=
      fun x hx => h x (List.mem_cons_of_mem l hx)
    simp only [accumulateLines, answersConcat]
    rw [processLine_decomp]
    unfold lineOk at hl
    cases hres : lineResult l with
    | error e => rw [hres] at hl; simp at hl
    | ok s =>
      simp only [hres, lineText]
      rw [ih (acc ++ s) hrest, String.append_assoc]

/-- C5 (amended): on any stream in which every line either contributes
a string `answer` fragment or is skipped (`lineOk`), and whose
fragments concatenate to a nonempty string, the External Chat Client
returns exactly that concatenation, in arrival order. -/
theorem C5_stream_reconstruction (message user_id : String) (lines : List String)
    (hok : ∀ l ∈ lines, lineOk l = true)
    (hne : answersConcat lines ≠ "") :
    chat_with_dify message user_id (.stream lines) = .ok (answersConcat lines) := by
  simp only [chat_with_dify, process_streaming_response]
  rw [accumulateLines_ok lines "" hok]
  simp [hne]

/-- C5 counterexample: the claim quantifies over *every* finite
sequence of stream lines, but on a stream whose well-formed lines
contribute nothing (here: a single malformed line, concatenation `""`)
the client does not return the concatenation — it fails with
`UpstreamEmptyResponse`. -/
theorem C5_counterexample :
    answersConcat malformedOnlyLines = "" ∧
    chat_with_dify "hello" "u1" (.stream malformedOnlyLines) =
      .error UpstreamEmptyResponse := by
  decide

/-- Witness for C5: the spec's concrete scenario, discharged through
`C5_stream_reconstruction`, yields `"Hello"`. -/
theorem C5_witness :
    ((∀ l ∈ exampleLines, lineOk l = true) ∧ answersConcat exampleLines ≠ "") ∧
    chat_with_dify "hello" "u1" (.stream exampleLines) = .ok "Hello" := by
  have h := C5_stream_reconstruction "hello" "u1" exampleLines (by decide) (by decide)
  have he : answersConcat exampleLines = "Hello" := by decide
  exact ⟨⟨by decide, by decide⟩, by rw [h, he]⟩

/-- C6: a stream that completes with an empty cumulative answer makes
the External Chat Client fail with `UpstreamEmptyResponse`. -/
theorem C6_empty_stream (message user_id : String) (lines : List String)
    (hok : ∀ l ∈ lines, lineOk l = true)
    (hempty : answersConcat lines = "") :
    chat_with_dify message user_id (.stream lines) = .error UpstreamEmptyResponse := by
  simp only [chat_with_dify, process_streaming_response]
  rw [accumulateLines_ok lines "" hok]
  simp [hempty]

/-- Witness for C6: a stream with no `answer` fragments, discharged
through `C6_empty_stream`. -/
theorem C6_witness :
    ((∀ l ∈ noAnswerLines, lineOk l = true) ∧ answersConcat noAnswerLines = "") ∧
    chat_with_dify "hi" "u2" (.stream noAnswerLines) = .error UpstreamEmptyResponse :=
  ⟨⟨by decide, by decide⟩,
    C6_empty_stream "hi" "u2" noAnswerLines (by decide) (by decide)⟩

/-! ## Lemmas about the chat orchestrator -/

/-- Anatomy of every 200 response: the token-resolved caller has a
paid, under-quota profile, the External Chat Client returned an answer,
the two transcript rows were appended under the request-body id with
consecutive server-assigned stamps, and the caller's usage counter was
written back incremented. -/
theorem chat_200_shape (st : ChatState) (tokenUid bodyUid message : String)
    (up : Upstream)
    (h : (chat st tokenUid bodyUid message up).response.status = 200) :
    ∃ p answer,
      findProfile st.profiles tokenUid = some p ∧
      p.is_paid = true ∧ p.chat_count < 50 ∧
      chat_with_dify message tokenUid up = .ok answer ∧
      chat st tokenUid bodyUid message up =
        ⟨⟨200, answer⟩,
         ⟨updateChatCount st.profiles tokenUid (p.chat_count + 1),
          st.messages ++ [⟨bodyUid, Role.user, message, st.messages.length⟩,
                          ⟨bodyUid, Role.assistant, answer, st.messages.length + 1⟩]⟩,
         true⟩ := by
  unfold chat chatTry at h ⊢
  cases hp : findProfile st.profiles tokenUid with
  | none => rw [hp] at h; simp at h
  | some p =>
    rw [hp] at h
    cases hpaid : p.is_paid with
    | false => simp [hpaid] at h
    | true =>
      by_cases hq : p.chat_count ≥ 50
      · simp [hpaid, hq] at h
      · cases hd : chat_with_dify message tokenUid up with
        | error e => rw [hd] at h; simp [hpaid, hq] at h
        | ok answer =>
          refine ⟨p, answer, rfl, hpaid, by omega, rfl, ?_⟩
          simp [hpaid, hq, appendMsg, List.append_assoc]

/-- Rows of users other than the one whose counter is written keep
their profile: `updateChatCount` only rewrites rows matching `tuid`. -/
theorem findProfile_updateChatCount_ne (ps : List Profile) (tuid uid : String)
    (n : Nat) (hne : uid ≠ tuid) :
    findProfile (updateChatCount ps tuid n) uid = findProfile ps uid := by
  unfold findProfile updateChatCount
  rw [List.find?_map]
  have hpred : ((fun p : Profile => p.user_id == uid) ∘
      (fun p : Profile => if p.user_id == tuid then { p with chat_count := n } else p)) =
      (fun p : Profile => p.user_id == uid) := by
    funext p
    by_cases hp : p.user_id = tuid
    · simp [Function.comp, hp]
    · simp [Function.comp, hp]
  rw [hpred]
  cases hf : ps.find? (fun p => p.user_id == uid) with
  | none => rfl
  | some q =>
    have hq := List.find?_some hf
    simp only [beq_iff_eq] at hq
    have hten : (q.user_id == tuid) = false := by
      simp only [hq, beq_eq_false_iff_ne, ne_eq]
      exact hne
    simp [Option.map, hten]

/-! ## C1: quota ceiling -/

/-- C1: a paid profile at or above the 50-exchange ceiling is rejected
with the 402 quota response; the External Chat Client is not invoked
and the store (both `chat_count` and the transcript) is unchanged. -/
theorem C1_quota_rejected (st : ChatState) (tokenUid bodyUid message : String)
    (up : Upstream) (p : Profile)
    (hp : findProfile st.profiles tokenUid = some p)
    (hpaid : p.is_paid = true)
    (hcount : p.chat_count ≥ 50) :
    chat st tokenUid bodyUid message up =
      ⟨⟨402, "Chat limit reached. Please purchase more credits."⟩, st, false⟩ := by
  unfold chat chatTry
  rw [hp]
  simp [hpaid, hcount]

/-- Witness for C1 at a concrete store. -/
theorem C1_witness :
    (findProfile quotaState.profiles "u1" = some ⟨"u1", true, 50, none⟩ ∧
      (⟨"u1", true, 50, none⟩ : Profile).is_paid = true ∧
      (⟨"u1", true, 50, none⟩ : Profile).chat_count ≥ 50) ∧
    chat quotaState "u1" "u1" "hi" (.stream []) =
      ⟨⟨402, "Chat limit reached. Please purchase more credits."⟩, quotaState, false⟩ :=
  ⟨⟨by decide, by decide, by decide⟩,
    C1_quota_rejected quotaState "u1" "u1" "hi" (.stream []) ⟨"u1", true, 50, none⟩
      (by decide) (by decide) (by decide)⟩

/-! ## C2: unpaid requests have no side effects -/

/-- C2: when the caller's entitlement record has `is_paid = false`, the
External Chat Client is never invoked and the store is unchanged (no
message persisted, no counter mutation). -/
theorem C2_unpaid_no_side_effects (st : ChatState) (tokenUid bodyUid message : String)
    (up : Upstream) (p : Profile)
    (hp : findProfile st.profiles tokenUid = some p)
    (hpaid : p.is_paid = false) :
    (chat st tokenUid bodyUid message up).difyCalled = false ∧
    (chat st tokenUid bodyUid message up).state = st := by
  unfold chat chatTry
  rw [hp]
  simp [hpaid]

/-- Witness for C2 at a concrete store. -/
theorem C2_witness :
    (findProfile unpaidState.profiles "u1" = some ⟨"u1", false, 0, none⟩ ∧
      (⟨"u1", false, 0, none⟩ : Profile).is_paid = false) ∧
    (chat unpaidState "u1" "u1" "hi" yoUp).difyCalled = false ∧
    (chat unpaidState "u1" "u1" "hi" yoUp).state = unpaidState :=
  ⟨⟨by decide, by decide⟩,
    C2_unpaid_no_side_effects unpaidState "u1" "u1" "hi" yoUp ⟨"u1", false, 0, none⟩
      (by decide) (by decide)⟩

/-! ## C3: the unpaid rejection does not surface as a 402 -/

/-- C3 (code behavior at the failing input): for an unpaid caller the
endpoint raises `HTTPException(402, "Please purchase access to start
chatting.")`, but the blanket `except Exception` handler (main.py lines
267-269) catches FastAPI's own exception and re-raises it as a 500
whose body merely embeds the original message — the client observes
status 500, not the claimed 402-equivalent. -/
theorem C3_unpaid_surfaces_as_500 :
    chat unpaidState "u1" "u1" "hi" yoUp =
      ⟨⟨500, "Internal server error: 402: Please purchase access to start chatting."⟩,
        unpaidState, false⟩ ∧
    (chat unpaidState "u1" "u1" "hi" yoUp).response.status ≠ 402 := by
  decide

/-! ## C4: missing profile does not surface as a 404 -/

/-- C4 (code behavior at the failing input): for an authenticated user
with no `user_profiles` row, line 221's `.single()` (or line 222's
`.get` on `None`) raises before the `if not user_profile` check on line
224, so the 404 `UserNotFound` branch is dead; the exception is caught
by the blanket handler and the client observes a 500.  The claim's
no-side-effect part does hold: the External Chat Client is not invoked
and the store is unchanged. -/
theorem C4_missing_profile_surfaces_as_500 :
    findProfile emptyStore.profiles "ghost" = none ∧
    (chat emptyStore "ghost" "ghost" "hi" yoUp).response.status = 500 ∧
    (chat emptyStore "ghost" "ghost" "hi" yoUp).response.status ≠ 404 ∧
    (chat emptyStore "ghost" "ghost" "hi" yoUp).difyCalled = false ∧
    (chat emptyStore "ghost" "ghost" "hi" yoUp).state = emptyStore := by
  decide

/-! ## C10: body id vs token id -/

/-- C10: on every successful exchange, the entitlement gate and the
counter increment use the token-resolved caller `tokenUid`, while both
persisted transcript rows carry the request-body id `bodyUid`; when the
two ids differ, the body-named user's transcript grows and their
entitlement record is untouched, while the authenticated caller is
charged. -/
theorem C10_body_id_vs_token_id (st : ChatState) (tokenUid bodyUid message : String)
    (up : Upstream)
    (h : (chat st tokenUid bodyUid message up).response.status = 200)
    (hne : bodyUid ≠ tokenUid) :
    ∃ p answer,
      findProfile st.profiles tokenUid = some p ∧
      p.is_paid = true ∧ p.chat_count < 50 ∧
      (chat st tokenUid bodyUid message up).state.messages =
        st.messages ++ [⟨bodyUid, Role.user, message, st.messages.length⟩,
                        ⟨bodyUid, Role.assistant, answer, st.messages.length + 1⟩] ∧
      (chat st tokenUid bodyUid message up).state.profiles =
        updateChatCount st.profiles tokenUid (p.chat_count + 1) ∧
      findProfile (chat st tokenUid bodyUid message up).state.profiles bodyUid =
        findProfile st.profiles bodyUid := by
  obtain ⟨p, answer, hp, hpaid, hq, hd, heq⟩ :=
    chat_200_shape st tokenUid bodyUid message up h
  refine ⟨p, answer, hp, hpaid, hq, ?_, ?_, ?_⟩
  · rw [heq]
  · rw [heq]
  · rw [heq]
    exact findProfile_updateChatCount_ne st.profiles tokenUid bodyUid
      (p.chat_count + 1) hne

/-- Witness for C10: token user "alice" is charged, body user "bob"
receives the transcript rows. -/
theorem C10_witness :
    ((chat aliceState "alice" "bob" "hi" yoUp).response.status = 200 ∧
      ("bob" : String) ≠ "alice") ∧
    (∃ p answer,
      findProfile aliceState.profiles "alice" = some p ∧
      p.is_paid = true ∧ p.chat_count < 50 ∧
      (chat aliceState "alice" "bob" "hi" yoUp).state.messages =
        aliceState.messages ++
          [⟨"bob", Role.user, "hi", aliceState.messages.length⟩,
           ⟨"bob", Role.assistant, answer, aliceState.messages.length + 1⟩] ∧
      (chat aliceState "alice" "bob" "hi" yoUp).state.profiles =
        updateChatCount aliceState.profiles "alice" (p.chat_count + 1) ∧
      findProfile (chat aliceState "alice" "bob" "hi" yoUp).state.profiles "bob" =
        findProfile aliceState.profiles "bob") :=
  ⟨⟨by decide, by decide⟩,
    C10_body_id_vs_token_id aliceState "alice" "bob" "hi" yoUp (by decide) (by decide)⟩

/-! ## Lemmas about the payment webhook -/

/-- A record found by customer id is in the table, so the update that
follows matches at least one row. -/
theorem any_user_id_of_findByCustomer (ps : List Profile) (cid : String) (p : Profile)
    (hfind : findByCustomer ps cid = some p) :
    (ps.any (fun q => q.user_id == p.user_id)) = true := by
  have hmem : p ∈ ps := List.mem_of_find?_eq_some hfind
  exact List.any_eq_true.mpr ⟨p, hmem, by simp⟩

/-! ## C8: when the usage counter resets -/

/-- C8 counterexample: a record that is *already* `is_paid = true` with
`chat_count = 30` has its counter reset to 0 by a redelivered
checkout-completed event — the reset is not exclusive to false→true
transitions, contradicting the claim's "no completed-payment event
resets the counter of a record whose is_paid is already true". -/
theorem C8_counterexample :
    (findProfile alreadyPaidState.profiles "u1").map Profile.is_paid = some true ∧
    (findProfile alreadyPaidState.profiles "u1").map Profile.chat_count = some 30 ∧
    (stripe_webhook alreadyPaidState true (.checkoutCompleted "cus_1")).2 =
      ⟨[⟨"u1", true, 0, some "cus_1"⟩], []⟩ := by
  decide

/-- C8 (amended): a verified checkout-completed event whose customer id
matches an entitlement record applies `mark_paid` to every row of that
user — setting `is_paid = true` and `chat_count = 0` — regardless of
the prior value of `is_paid`.  Hence every false→true transition resets
the counter to 0, but the counter is also reset when `is_paid` was
already true. -/
theorem C8_reset_on_every_completed_event (st : ChatState) (cid : String) (p : Profile)
    (hfind : findByCustomer st.profiles cid = some p) :
    (stripe_webhook st true (.checkoutCompleted cid)).2 =
      ⟨markPaidUpdate st.profiles p.user_id, st.messages⟩ ∧
    (stripe_webhook st true (.checkoutCompleted cid)).1.status = 200 ∧
    ∀ q, (mark_paid q).is_paid = true ∧ (mark_paid q).chat_count = 0 := by
  have hany := any_user_id_of_findByCustomer st.profiles cid p hfind
  simp [stripe_webhook, hfind, hany, mark_paid]

/-- Witness for C8's amended theorem at a concrete store. -/
theorem C8_witness :
    (findByCustomer alreadyPaidState.profiles "cus_1" =
      some ⟨"u1", true, 30, some "cus_1"⟩) ∧
    ((stripe_webhook alreadyPaidState true (.checkoutCompleted "cus_1")).2 =
      ⟨markPaidUpdate alreadyPaidState.profiles "u1", alreadyPaidState.messages⟩ ∧
    (stripe_webhook alreadyPaidState true (.checkoutCompleted "cus_1")).1.status = 200 ∧
    ∀ q, (mark_paid q).is_paid = true ∧ (mark_paid q).chat_count = 0) :=
  ⟨by decide,
    C8_reset_on_every_completed_event alreadyPaidState "cus_1"
      ⟨"u1", true, 30, some "cus_1"⟩ (by decide)⟩

/-! ## C9: idempotence of mark_paid -/

/-- C9: `mark_paid` is idempotent — applying the checkout-completed
mutation twice yields the same `(is_paid = true, chat_count = 0)` state
as applying it once, both on a single record and on the whole
`user_profiles` table update, so redelivered checkout-completed webhook
events are harmless. -/
theorem C9_mark_paid_idempotent (p : Profile) (ps : List Profile) (uid : String) :
    mark_paid (mark_paid p) = mark_paid p ∧
    (mark_paid p).is_paid = true ∧
    (mark_paid p).chat_count = 0 ∧
    markPaidUpdate (markPaidUpdate ps uid) uid = markPaidUpdate ps uid := by
  refine ⟨rfl, rfl, rfl, ?_⟩
  induction ps with
  | nil => rfl
  | cons q qs ih =>
    simp only [markPaidUpdate, List.map_cons]
    congr 1
    by_cases hq : q.user_id = uid
    · simp [hq, mark_paid]
    · simp [hq]

/-! ## Lemmas for the transcript round-trip -/

theorem transcriptOf_length (uid : String) (ps : List (String × String)) :
    ∀ start, (transcriptOf uid start ps).length = 2 * ps.length := by
  induction ps with
  | nil => intro start; rfl
  | cons pr rest ih =>
    intro start
    cases pr with
    | mk q a =>
      simp [transcriptOf, ih]
      omega

theorem transcriptOf_roles (uid : String) (ps : List (String × String)) :
    ∀ start, (transcriptOf uid start ps).map Msg.role = alternatingRoles ps.length := by
  induction ps with
  | nil => intro start; rfl
  | cons pr rest ih =>
    intro start
    cases pr with
    | mk q a => simp [transcriptOf, alternatingRoles, ih]

theorem transcriptOf_filter (uid : String) (ps : List (String × String)) :
    ∀ start, (transcriptOf uid start ps).filter (fun m => m.user_id == uid) =
      transcriptOf uid start ps := by
  induction ps with
  | nil => intro start; rfl
  | cons pr rest ih =>
    intro start
    cases pr with
    | mk q a => simp [transcriptOf, List.filter_cons, ih]

theorem chronological_transcript_aux (uid : String) (ps : List (String × String)) :
    ∀ (start : Nat) (m : Msg), m.created_at < start →
      chronological (m :: transcriptOf uid start ps) = true := by
  induction ps with
  | nil => intro start m _; rfl
  | cons pr rest ih =>
    intro start m hm
    cases pr with
    | mk q a =>
      have h2 := ih (start + 2) ⟨uid, Role.assistant, a, start + 1⟩
        (by show start + 1 < start + 2; omega)
      simp [transcriptOf, chronological, hm, lt_add_one, h2]

theorem transcriptOf_chronological (uid : String) (ps : List (String × String))
    (start : Nat) : chronological (transcriptOf uid start ps) = true := by
  cases ps with
  | nil => rfl
  | cons pr rest =>
    cases pr with
    | mk q a =>
      have h2 := chronological_transcript_aux uid rest (start + 2)
        ⟨uid, Role.assistant, a, start + 1⟩ (by show start + 1 < start + 2; omega)
      simp [transcriptOf, chronological, lt_add_one, h2]

theorem chronological_tail (m : Msg) (ms : List Msg)
    (h : chronological (m :: ms) = true) : chronological ms = true := by
  cases ms with
  | nil => rfl
  | cons b rest =>
    simp only [chronological, Bool.and_eq_true, decide_eq_true_eq] at h
    exact h.2

/-- Sorting by `created_at` leaves an already chronological list
unchanged. -/
theorem sortByTime_of_chronological (ms : List Msg)
    (h : chronological ms = true) : sortByTime ms = ms := by
  induction ms with
  | nil => rfl
  | cons m rest ih =>
    have hrest := chronological_tail m rest h
    rw [sortByTime, ih hrest]
    cases rest with
    | nil => rfl
    | cons b rest2 =>
      simp only [chronological, Bool.and_eq_true, decide_eq_true_eq] at h
      simp [insertByTime, Nat.le_of_lt h.1]

/-- Shape of a run of all-successful exchanges: the final message table
is the initial one extended by user/assistant pairs for `uid` with
consecutive stamps, one pair per request. -/
theorem runChats_shape (uid : String) (inputs : List (String × Upstream)) :
    ∀ st : ChatState,
      (runChats st uid inputs).2.all (fun s => s == 200) = true →
      ∃ pairs : List (String × String),
        pairs.length = inputs.length ∧
        (runChats st uid inputs).1.messages =
          st.messages ++ transcriptOf uid st.messages.length pairs := by
  induction inputs with
  | nil =>
    intro st _
    exact ⟨[], rfl, by simp [runChats, transcriptOf]⟩
  | cons inp rest ih =>
    intro st hall
    cases inp with
    | mk msg up =>
      simp only [runChats] at hall ⊢
      rw [List.all_cons, Bool.and_eq_true] at hall
      have h200 : (chat st uid uid msg up).response.status = 200 := by
        simpa using hall.1
      obtain ⟨p, answer, hp, hpaid, hq, hd, heq⟩ := chat_200_shape st uid uid msg up h200
      obtain ⟨pairs, hlen, hmsgs⟩ := ih (chat st uid uid msg up).state hall.2
      refine ⟨(msg, answer) :: pairs, by simp [hlen], ?_⟩
      rw [hmsgs, heq]
      simp [transcriptOf, List.append_assoc]

/-! ## C7: transcript round-trip -/

/-- C7: starting from a store in which `uid` has no transcript rows,
after `N` chat exchanges that all succeeded (status 200, token id and
body id both `uid`), the chat-history endpoint returns exactly `2N`
messages, in ascending `created_at` order, with roles alternating
user/assistant starting with user. -/
theorem C7_transcript_roundtrip (st0 : ChatState) (uid : String)
    (inputs : List (String × Upstream))
    (hclean : st0.messages.filter (fun m => m.user_id == uid) = [])
    (hall : (runChats st0 uid inputs).2.all (fun s => s == 200) = true) :
    (get_chat_history (runChats st0 uid inputs).1 uid).length = 2 * inputs.length ∧
    (get_chat_history (runChats st0 uid inputs).1 uid).map Msg.role =
      alternatingRoles inputs.length ∧
    chronological (get_chat_history (runChats st0 uid inputs).1 uid) = true := by
  obtain ⟨pairs, hlen, hmsgs⟩ := runChats_shape uid inputs st0 hall
  have hhist : get_chat_history (runChats st0 uid inputs).1 uid =
      transcriptOf uid st0.messages.length pairs := by
    unfold get_chat_history
    rw [hmsgs, List.filter_append, hclean, List.nil_append,
      transcriptOf_filter uid pairs st0.messages.length]
    exact sortByTime_of_chronological _
      (transcriptOf_chronological uid pairs st0.messages.length)
  rw [hhist]
  refine ⟨?_, ?_, transcriptOf_chronological uid pairs st0.messages.length⟩
  · rw [transcriptOf_length uid pairs st0.messages.length, hlen]
  · rw [transcriptOf_roles uid pairs st0.messages.length, hlen]

/-- Witness for C7: two successful exchanges yield a 4-message
alternating chronological transcript. -/
theorem C7_witness :
    (aliceState.messages.filter (fun m => m.user_id == "alice") = [] ∧
      (runChats aliceState "alice" twoExchanges).2.all (fun s => s == 200) = true) ∧
    ((get_chat_history (runChats aliceState "alice" twoExchanges).1 "alice").length =
        2 * twoExchanges.length ∧
      (get_chat_history (runChats aliceState "alice" twoExchanges).1 "alice").map Msg.role =
        alternatingRoles twoExchanges.length ∧
      chronological (get_chat_history (runChats aliceState "alice" twoExchanges).1 "alice") =
        true) :=
  ⟨⟨by decide, by decide⟩,
    C7_transcript_roundtrip aliceState "alice" twoExchanges (by decide) (by decide)⟩

end DifyChat
